import Mathlib

/-!
# DcmReactiveStepper: one control cycle of the reactive stepper

Shallow embedding of `src/src/dcm_reactive_stepper.cpp`.

* C++ `double` is modelled by `ℚ`: the properties below concern data flow,
  exact constants (`0.0`, `0.5`) and assignments, not rounding.
* `Eigen::Vector3d` is a record of three scalars.
* The three member objects `stepper_head_`, `dcm_vrp_planner_` and
  `end_eff_traj3d_` belong to classes whose code is not in the file; their
  member functions are taken as parameters (`Components`), so every theorem
  about `initialize` and `run` holds for all implementations of them.
* `assert(dcm_vrp_planner_.solve())` is taken with its checking meaning: the
  call is made and a `false` result terminates the cycle (`RunResult.aborted`).
-/

namespace reactive_planners

/-- Eigen::Vector3d, three scalars. -/
@[ext]
structure Vector3d where
  x : ℚ
  y : ℚ
  z : ℚ
deriving DecidableEq

namespace Vector3d

/-- The value left by `v.setZero()`. -/
def setZero : Vector3d := ⟨0, 0, 0⟩

/-- Component-wise `a - b`. -/
def sub (a b : Vector3d) : Vector3d := ⟨a.x - b.x, a.y - b.y, a.z - b.z⟩

/-- Product `a * c` of a vector with a scalar. -/
def scale (a : Vector3d) (c : ℚ) : Vector3d := ⟨a.x * c, a.y * c, a.z * c⟩

/-- The assignment `a[2] = c`. -/
def setZ (a : Vector3d) (c : ℚ) : Vector3d := ⟨a.x, a.y, c⟩

end Vector3d

/-- Eigen::Vector9d, the planner cost weights. -/
abbrev Vector9d := Fin 9 → ℚ

/-- Member functions of the scheduler object `stepper_head_` that the stepper
calls, over a scheduler state `H`. -/
structure SchedulerOps (H : Type) where
  /-- Member `run(duration_before_step_landing, next_support_location, current_time)`. -/
  run : H → ℚ → Vector3d → ℚ → H
  get_time_from_last_step_touchdown : H → ℚ
  get_current_support_location : H → Vector3d
  get_previous_support_location : H → Vector3d
  get_is_left_leg_in_contact : H → Bool

/-- Member functions of the planner object `dcm_vrp_planner_` that the stepper
calls, over a planner state `P`. -/
structure PlannerOps (P : Type) where
  /-- Member `initialize(l_min, l_max, w_min, w_max, t_min, t_max, l_p, com_height, weight)`. -/
  initialise : P → ℚ → ℚ → ℚ → ℚ → ℚ → ℚ → ℚ → ℚ → Vector9d → P
  /-- Member `update(current_support, time_from_last_step_touchdown, is_left_leg_in_contact,
  desired_com_velocity, com_position, com_velocity, base_yaw)`. -/
  update : P → Vector3d → ℚ → Bool → Vector3d → Vector3d → Vector3d → ℚ → P
  /-- Member `solve()`: the returned flag and the planner state it leaves. -/
  solve : P → Bool × P
  get_duration_before_step_landing : P → ℚ
  get_next_step_location : P → Vector3d

/-- Member functions of the trajectory object `end_eff_traj3d_` that the stepper
calls, over a generator state `T`. -/
structure TrajectoryOps (T : Type) where
  set_mid_air_height : T → ℚ → T
  /-- Member `compute(start_pose, current_pose, current_velocity, current_acceleration,
  target_pose, start_time, current_time, end_time)`. -/
  compute : T → Vector3d → Vector3d → Vector3d → Vector3d → Vector3d → ℚ → ℚ → ℚ → T
  /-- Member `get_next_state(next_time, pose, velocity, acceleration)`: the last three
  arguments are references that the call overwrites; the result carries the
  generator state and the three values written back. -/
  get_next_state : T → ℚ → Vector3d → Vector3d → Vector3d → T × Vector3d × Vector3d × Vector3d

/-- The three collaborating classes of the stepper. -/
structure Components where
  Head : Type
  Planner : Type
  Traj : Type
  stepper_head : SchedulerOps Head
  dcm_vrp_planner : PlannerOps Planner
  end_eff_traj3d : TrajectoryOps Traj

/-- Data members of `DcmReactiveStepper` that the two member functions touch. -/
structure DcmReactiveStepper (C : Components) where
  dcm_vrp_planner_ : C.Planner
  end_eff_traj3d_ : C.Traj
  stepper_head_ : C.Head
  control_period_ : ℚ
  is_left_leg_in_contact_ : Bool
  step_duration_ : ℚ
  time_from_last_step_touchdown_ : ℚ
  previous_support_foot_position_ : Vector3d
  current_support_foot_position_ : Vector3d
  next_support_foot_position_ : Vector3d
  desired_com_velocity_ : Vector3d
  right_foot_position_ : Vector3d
  right_foot_velocity_ : Vector3d
  right_foot_acceleration_ : Vector3d
  left_foot_position_ : Vector3d
  left_foot_velocity_ : Vector3d
  left_foot_acceleration_ : Vector3d
  feasible_com_velocity_ : Vector3d

/-- Outcome of one call of `run`: it returns (`completed`), or the assertion on
the planner's `solve` fails and the call never returns (`aborted`, carrying the
object as it stands when the assertion fires). -/
inductive RunResult (C : Components) where
  | completed (s : DcmReactiveStepper C)
  | aborted (s : DcmReactiveStepper C)

/-- Member function `DcmReactiveStepper::initialize` (lines 22-57); `initialize` is a
reserved word, hence the spelling. -/
def initialise (C : Components) (s : DcmReactiveStepper C)
    (is_left_leg_in_contact : Bool)
    (l_min l_max w_min w_max t_min t_max l_p com_height : ℚ)
    (weight : Vector9d) (mid_air_foot_height control_period : ℚ) :
    DcmReactiveStepper C :=
  { -- Initialize the dcm vrp planner and initialize it.
    dcm_vrp_planner_ :=
      C.dcm_vrp_planner.initialise s.dcm_vrp_planner_
        l_min l_max w_min w_max t_min t_max l_p com_height weight
    -- Initialize the end-effector trajectory generator.
    end_eff_traj3d_ := C.end_eff_traj3d.set_mid_air_height s.end_eff_traj3d_ mid_air_foot_height
    -- `stepper_head_` is not touched.
    stepper_head_ := s.stepper_head_
    -- Parameters
    control_period_ := control_period
    is_left_leg_in_contact_ := is_left_leg_in_contact
    step_duration_ := 0
    time_from_last_step_touchdown_ := 0
    previous_support_foot_position_ := Vector3d.setZero
    current_support_foot_position_ := Vector3d.setZero
    next_support_foot_position_ := Vector3d.setZero
    desired_com_velocity_ := Vector3d.setZero
    right_foot_position_ := Vector3d.setZero
    right_foot_velocity_ := Vector3d.setZero
    right_foot_acceleration_ := Vector3d.setZero
    left_foot_position_ := Vector3d.setZero
    left_foot_velocity_ := Vector3d.setZero
    left_foot_acceleration_ := Vector3d.setZero
    feasible_com_velocity_ := Vector3d.setZero }

/-- Member function `DcmReactiveStepper::run` (lines 59-140). -/
def run (C : Components) (s : DcmReactiveStepper C) (time : ℚ)
    (next_support_foot_position com_position com_velocity : Vector3d)
    (base_yaw : ℚ) : RunResult C :=
  -- Run the scheduler of the planner.
  let head := C.stepper_head.run s.stepper_head_ s.step_duration_ next_support_foot_position time
  -- Extract the useful informations.
  let time_from_last_step_touchdown := C.stepper_head.get_time_from_last_step_touchdown head
  let current_support_foot_position := C.stepper_head.get_current_support_location head
  let previous_support_foot_position := C.stepper_head.get_previous_support_location head
  let is_left_leg_in_contact := C.stepper_head.get_is_left_leg_in_contact head
  -- Run the DcmVrpPlanner to get the next foot step location.
  let updated :=
    C.dcm_vrp_planner.update s.dcm_vrp_planner_ current_support_foot_position
      time_from_last_step_touchdown is_left_leg_in_contact s.desired_com_velocity_
      com_position com_velocity base_yaw
  let solved := C.dcm_vrp_planner.solve updated
  if solved.1 = false then
    -- the assertion fails: nothing after line 84 is executed
    RunResult.aborted
      { s with
        stepper_head_ := head
        time_from_last_step_touchdown_ := time_from_last_step_touchdown
        current_support_foot_position_ := current_support_foot_position
        previous_support_foot_position_ := previous_support_foot_position
        is_left_leg_in_contact_ := is_left_leg_in_contact
        dcm_vrp_planner_ := solved.2 }
  else
    -- Extract the useful informations.
    let step_duration := C.dcm_vrp_planner.get_duration_before_step_landing solved.2
    let next_support := C.dcm_vrp_planner.get_next_step_location solved.2
    let start_time : ℚ := 0
    let current_time := C.stepper_head.get_time_from_last_step_touchdown head
    let end_time := C.dcm_vrp_planner.get_duration_before_step_landing solved.2
    -- Compute the feasible velocity (lines 138-139).
    let feasible_com_velocity :=
      ((next_support.sub previous_support_foot_position).scale (1 / 2)).setZ 0
    -- Compute the flying foot trajectory.
    if is_left_leg_in_contact = true then
      -- flying foot is the right foot
      let traj :=
        C.end_eff_traj3d.compute s.end_eff_traj3d_ previous_support_foot_position
          s.right_foot_position_ s.right_foot_velocity_ s.right_foot_acceleration_
          next_support start_time current_time end_time
      let nxt :=
        C.end_eff_traj3d.get_next_state traj (current_time + s.control_period_)
          s.right_foot_position_ s.right_foot_velocity_ s.right_foot_acceleration_
      RunResult.completed
        { dcm_vrp_planner_ := solved.2
          end_eff_traj3d_ := nxt.1
          stepper_head_ := head
          control_period_ := s.control_period_
          is_left_leg_in_contact_ := is_left_leg_in_contact
          step_duration_ := step_duration
          time_from_last_step_touchdown_ := time_from_last_step_touchdown
          previous_support_foot_position_ := previous_support_foot_position
          current_support_foot_position_ := current_support_foot_position
          next_support_foot_position_ := next_support
          desired_com_velocity_ := s.desired_com_velocity_
          right_foot_position_ := nxt.2.1
          right_foot_velocity_ := nxt.2.2.1
          right_foot_acceleration_ := nxt.2.2.2
          -- The current support foot does not move
          left_foot_position_ := current_support_foot_position
          left_foot_velocity_ := Vector3d.setZero
          left_foot_acceleration_ := Vector3d.setZero
          feasible_com_velocity_ := feasible_com_velocity }
    else
      -- flying foot is the left foot
      let traj :=
        C.end_eff_traj3d.compute s.end_eff_traj3d_ previous_support_foot_position
          s.left_foot_position_ s.left_foot_velocity_ s.left_foot_acceleration_
          next_support start_time current_time end_time
      let nxt :=
        C.end_eff_traj3d.get_next_state traj (current_time + s.control_period_)
          s.left_foot_position_ s.left_foot_velocity_ s.left_foot_acceleration_
      RunResult.completed
        { dcm_vrp_planner_ := solved.2
          end_eff_traj3d_ := nxt.1
          stepper_head_ := head
          control_period_ := s.control_period_
          is_left_leg_in_contact_ := is_left_leg_in_contact
          step_duration_ := step_duration
          time_from_last_step_touchdown_ := time_from_last_step_touchdown
          previous_support_foot_position_ := previous_support_foot_position
          current_support_foot_position_ := current_support_foot_position
          next_support_foot_position_ := next_support
          desired_com_velocity_ := s.desired_com_velocity_
          left_foot_position_ := nxt.2.1
          left_foot_velocity_ := nxt.2.2.1
          left_foot_acceleration_ := nxt.2.2.2
          -- The current support foot does not move
          right_foot_position_ := current_support_foot_position
          right_foot_velocity_ := Vector3d.setZero
          right_foot_acceleration_ := Vector3d.setZero
          feasible_com_velocity_ := feasible_com_velocity }

/-- The scheduler state left by the call of lines 67-68. -/
def scheduled (C : Components) (s : DcmReactiveStepper C) (time : ℚ)
    (next_support_foot_position : Vector3d) : C.Head :=
  C.stepper_head.run s.stepper_head_ s.step_duration_ next_support_foot_position time

/-- The planner call of lines 77-84: `update` on the scheduler's outputs, then
`solve`; the flag `solve` returns and the planner state it leaves. -/
def solved (C : Components) (s : DcmReactiveStepper C) (time : ℚ)
    (next_support_foot_position com_position com_velocity : Vector3d)
    (base_yaw : ℚ) : Bool × C.Planner :=
  C.dcm_vrp_planner.solve
    (C.dcm_vrp_planner.update s.dcm_vrp_planner_
      (C.stepper_head.get_current_support_location (scheduled C s time next_support_foot_position))
      (C.stepper_head.get_time_from_last_step_touchdown
        (scheduled C s time next_support_foot_position))
      (C.stepper_head.get_is_left_leg_in_contact (scheduled C s time next_support_foot_position))
      s.desired_com_velocity_ com_position com_velocity base_yaw)

/-- The object a call of `run` leaves behind, whether the call returns or not. -/
def RunResult.state {C : Components} : RunResult C → DcmReactiveStepper C
  | RunResult.completed s => s
  | RunResult.aborted s => s

/-- The stored state (position, velocity, acceleration) of the foot that flies
when the contact side is `is_left_leg_in_contact`: the right foot when the left
one is in contact, the left foot otherwise (the choice of lines 94-135). -/
def flyingFoot {C : Components} (s : DcmReactiveStepper C) (is_left_leg_in_contact : Bool) :
    Vector3d × Vector3d × Vector3d :=
  if is_left_leg_in_contact = true then
    (s.right_foot_position_, s.right_foot_velocity_, s.right_foot_acceleration_)
  else
    (s.left_foot_position_, s.left_foot_velocity_, s.left_foot_acceleration_)

/-- States the stepper can be in after `initialize` and any number of cycles
that returned. -/
inductive Reachable (C : Components) : DcmReactiveStepper C → Prop where
  | init (s : DcmReactiveStepper C) (is_left_leg_in_contact : Bool)
      (l_min l_max w_min w_max t_min t_max l_p com_height : ℚ)
      (weight : Vector9d) (mid_air_foot_height control_period : ℚ) :
      Reachable C (initialise C s is_left_leg_in_contact l_min l_max w_min w_max t_min t_max
        l_p com_height weight mid_air_foot_height control_period)
  | cycle (s s' : DcmReactiveStepper C) (time : ℚ)
      (next_support_foot_position com_position com_velocity : Vector3d) (base_yaw : ℚ) :
      Reachable C s →
      run C s time next_support_foot_position com_position com_velocity base_yaw
        = RunResult.completed s' →
      Reachable C s'

/-! ## Concrete components -/

/-- Modelled from the spec: the contact scheduler (class `StepperHead`, object
`stepper_head_`), whose code is not in the file. Its state is the spec's contact
state (current support location, previous support location, time since last
touchdown, which foot is in contact) together with the time of the last
touchdown. -/
structure StepperHead where
  time_from_last_step_touchdown_ : ℚ
  is_left_leg_in_contact_ : Bool
  previous_support_location_ : Vector3d
  current_support_location_ : Vector3d
  time_support_switch_ : ℚ
deriving DecidableEq

namespace StepperHead

/-- Modelled from the spec: the scheduler's `initialize(side_in_contact)`, "sets
initial stance foot, zeros all location/time state". -/
def init (side_in_contact : Bool) : StepperHead :=
  { time_from_last_step_touchdown_ := 0
    is_left_leg_in_contact_ := side_in_contact
    previous_support_location_ := Vector3d.setZero
    current_support_location_ := Vector3d.setZero
    time_support_switch_ := 0 }

/-- Modelled from the spec: the scheduler's `advance(step_duration,
nominal_next_support_location, current_time)` (called `run` by the stepper). "If
elapsed time since the last touchdown reaches the previous cycle's planned step
duration, commits a touchdown event: current support becomes previous support,
the nominal next location becomes the new current support, the contact side
flips, and elapsed time resets to zero. Otherwise, only the elapsed-time counter
advances." A step duration of 0 is interpreted as "never trigger". -/
def run (h : StepperHead) (step_duration : ℚ) (next_support_location : Vector3d)
    (current_time : ℚ) : StepperHead :=
  if step_duration ≠ 0 ∧ step_duration ≤ current_time - h.time_support_switch_ then
    { time_from_last_step_touchdown_ := 0
      is_left_leg_in_contact_ := !h.is_left_leg_in_contact_
      previous_support_location_ := h.current_support_location_
      current_support_location_ := next_support_location
      time_support_switch_ := current_time }
  else
    { h with time_from_last_step_touchdown_ := current_time - h.time_support_switch_ }

/-- The scheduler as the stepper sees it. -/
def ops : SchedulerOps StepperHead :=
  { run := run
    get_time_from_last_step_touchdown := fun h => h.time_from_last_step_touchdown_
    get_current_support_location := fun h => h.current_support_location_
    get_previous_support_location := fun h => h.previous_support_location_
    get_is_left_leg_in_contact := fun h => h.is_left_leg_in_contact_ }

end StepperHead

/-- Modelled from the spec: the step planner (object `dcm_vrp_planner_`), whose
code is not in the file and whose optimisation is an external black box. Only
the spec's data model is kept: the admissibility bounds and cost weights stored
at initialisation, and the plan result (next step location, duration before
landing, feasibility flag) that `solve` reports and the accessors read. -/
structure PlanStore where
  l_min : ℚ
  l_max : ℚ
  w_min : ℚ
  w_max : ℚ
  t_min : ℚ
  t_max : ℚ
  l_p : ℚ
  com_height : ℚ
  weight : Vector9d
  feasible : Bool
  duration_before_step_landing : ℚ
  next_step_location : Vector3d

/-- The planner instance over `PlanStore`: initialisation records the
configuration, `update` keeps the stored plan, `solve` reports its flag. -/
def PlanStore.ops : PlannerOps PlanStore :=
  { initialise := fun p l_min l_max w_min w_max t_min t_max l_p com_height weight =>
      { p with l_min := l_min, l_max := l_max, w_min := w_min, w_max := w_max,
               t_min := t_min, t_max := t_max, l_p := l_p, com_height := com_height,
               weight := weight }
    update := fun p _ _ _ _ _ _ _ => p
    solve := fun p => (p.feasible, p)
    get_duration_before_step_landing := fun p => p.duration_before_step_landing
    get_next_step_location := fun p => p.next_step_location }

/-- Modelled from the spec: the swing trajectory generator (object
`end_eff_traj3d_`), whose code is not in the file. The state is the spec's
parametrisation: mid-air height, boundary state and time window given to
`compute`. -/
structure SwingFit where
  mid_air_height : ℚ
  start_position : Vector3d
  current_position : Vector3d
  current_velocity : Vector3d
  current_acceleration : Vector3d
  target_position : Vector3d
  start_time : ℚ
  current_time : ℚ
  end_time : ℚ

/-- The generator instance over `SwingFit`. Evaluation at or after `end_time`
returns the target with zero velocity and acceleration (the spec's clamping);
the spec gives no formula inside the window, where this instance returns the
boundary state given to `compute`. -/
def SwingFit.ops : TrajectoryOps SwingFit :=
  { set_mid_air_height := fun t h => { t with mid_air_height := h }
    compute := fun t start pos vel acc target start_time current_time end_time =>
      { mid_air_height := t.mid_air_height
        start_position := start
        current_position := pos
        current_velocity := vel
        current_acceleration := acc
        target_position := target
        start_time := start_time
        current_time := current_time
        end_time := end_time }
    get_next_state := fun t next_time _ _ _ =>
      if t.end_time ≤ next_time then
        (t, t.target_position, Vector3d.setZero, Vector3d.setZero)
      else
        (t, t.current_position, t.current_velocity, t.current_acceleration) }

/-- The stepper over the spec-modelled scheduler and any planner and trajectory
generator. -/
def withStepperHead (P T : Type) (planner : PlannerOps P) (traj : TrajectoryOps T) :
    Components :=
  { Head := StepperHead
    Planner := P
    Traj := T
    stepper_head := StepperHead.ops
    dcm_vrp_planner := planner
    end_eff_traj3d := traj }

/-- The stepper over the three concrete components. -/
def concrete : Components :=
  withStepperHead PlanStore SwingFit PlanStore.ops SwingFit.ops

/-- A stepper object before `initialize`: scheduler in state `head`, planner
holding the plan `(feasible, duration, next)`, everything else zero. -/
def fresh (head : StepperHead) (feasible : Bool) (duration : ℚ) (next : Vector3d) :
    DcmReactiveStepper concrete :=
  { dcm_vrp_planner_ :=
      { l_min := 0, l_max := 0, w_min := 0, w_max := 0, t_min := 0, t_max := 0, l_p := 0,
        com_height := 0, weight := fun _ => 0, feasible := feasible,
        duration_before_step_landing := duration, next_step_location := next }
    end_eff_traj3d_ :=
      { mid_air_height := 0, start_position := Vector3d.setZero,
        current_position := Vector3d.setZero, current_velocity := Vector3d.setZero,
        current_acceleration := Vector3d.setZero, target_position := Vector3d.setZero,
        start_time := 0, current_time := 0, end_time := 0 }
    stepper_head_ := head
    control_period_ := 0
    is_left_leg_in_contact_ := head.is_left_leg_in_contact_
    step_duration_ := 0
    time_from_last_step_touchdown_ := 0
    previous_support_foot_position_ := Vector3d.setZero
    current_support_foot_position_ := Vector3d.setZero
    next_support_foot_position_ := Vector3d.setZero
    desired_com_velocity_ := Vector3d.setZero
    right_foot_position_ := Vector3d.setZero
    right_foot_velocity_ := Vector3d.setZero
    right_foot_acceleration_ := Vector3d.setZero
    left_foot_position_ := Vector3d.setZero
    left_foot_velocity_ := Vector3d.setZero
    left_foot_acceleration_ := Vector3d.setZero
    feasible_com_velocity_ := Vector3d.setZero }

/-- The spec's scenario configuration (l in [0.1, 0.4], w in [0.1, 0.3], t in
[0.1, 1.0], CoM height 0.3, control period 0.01) applied to `fresh`, with initial
contact side `b`. -/
def configured (b : Bool) (head : StepperHead) (feasible : Bool) (duration : ℚ)
    (next : Vector3d) : DcmReactiveStepper concrete :=
  initialise concrete (fresh head feasible duration next) b
    (1 / 10) (4 / 10) (1 / 10) (3 / 10) (1 / 10) 1 (2 / 10) (3 / 10) (fun _ => 1) (5 / 100)
    (1 / 100)

/-- A scheduler that has been walking: right foot in contact at (3/10, -1/10, 0)
since time 2, the previous support at (0, 1/10, 0). -/
def walkingHead : StepperHead :=
  { time_from_last_step_touchdown_ := 1 / 4
    is_left_leg_in_contact_ := false
    previous_support_location_ := ⟨0, 1 / 10, 0⟩
    current_support_location_ := ⟨3 / 10, -1 / 10, 0⟩
    time_support_switch_ := 2 }

/-- A planned landing spot used in the examples. -/
def landing : Vector3d := ⟨1 / 2, 1 / 10, 0⟩

/-- A stepper in mid-walk: the stepper's own copies agree with `walkingHead`, the
last plan has duration 1/2 and target `landing`, the left foot is in the air. -/
def walking (feasible : Bool) : DcmReactiveStepper concrete :=
  { fresh walkingHead feasible (1 / 2) landing with
    control_period_ := 1 / 100
    step_duration_ := 1 / 2
    time_from_last_step_touchdown_ := 1 / 4
    previous_support_foot_position_ := ⟨0, 1 / 10, 0⟩
    current_support_foot_position_ := ⟨3 / 10, -1 / 10, 0⟩
    next_support_foot_position_ := landing
    right_foot_position_ := ⟨3 / 10, -1 / 10, 0⟩
    left_foot_position_ := ⟨1 / 10, 1 / 10, 1 / 20⟩
    left_foot_velocity_ := ⟨1, 0, 1 / 5⟩
    left_foot_acceleration_ := ⟨0, 0, -1⟩
    feasible_com_velocity_ := ⟨1 / 4, 0, 0⟩ }

/-- The stepper after `initialize` with the scenario configuration and one cycle
at time 1/100. -/
def firstCycle : DcmReactiveStepper concrete :=
  (run concrete (configured true (StepperHead.init true) true (1 / 2) landing)
    (1 / 100) landing ⟨0, 0, 3 / 10⟩ ⟨0, 0, 0⟩ 0).state

/-- The walking stepper after the cycle at time 9/4. -/
def walkingNext : DcmReactiveStepper concrete :=
  (run concrete (walking true) (9 / 4) landing ⟨0, 0, 3 / 10⟩ ⟨0, 0, 0⟩ 0).state

/-! ## Shape of `run` -/

/-- When `solve` returns `false`, `run` stops at the assertion. -/
theorem run_of_solve_false (C : Components) (s : DcmReactiveStepper C) (time : ℚ)
    (nsfp com_position com_velocity : Vector3d) (base_yaw : ℚ)
    (h : (solved C s time nsfp com_position com_velocity base_yaw).1 = false) :
    run C s time nsfp com_position com_velocity base_yaw =
      RunResult.aborted
        { s with
          stepper_head_ := scheduled C s time nsfp
          time_from_last_step_touchdown_ :=
            C.stepper_head.get_time_from_last_step_touchdown (scheduled C s time nsfp)
          current_support_foot_position_ :=
            C.stepper_head.get_current_support_location (scheduled C s time nsfp)
          previous_support_foot_position_ :=
            C.stepper_head.get_previous_support_location (scheduled C s time nsfp)
          is_left_leg_in_contact_ :=
            C.stepper_head.get_is_left_leg_in_contact (scheduled C s time nsfp)
          dcm_vrp_planner_ := (solved C s time nsfp com_position com_velocity base_yaw).2 } := by
  simp only [solved, scheduled] at h
  simp only [run, solved, scheduled, h, if_true]

/-! ## The stance foot -/

/-- C1: whenever the planner's solve succeeds, `run` returns, and the stance foot
(left when the scheduler reports left-in-contact in this cycle, right otherwise)
has velocity (0,0,0), acceleration (0,0,0) and position equal to the current
support location the scheduler reported in this cycle. -/
theorem stance_foot_frozen (C : Components) (s : DcmReactiveStepper C) (time : ℚ)
    (nsfp com_position com_velocity : Vector3d) (base_yaw : ℚ)
    (hsolve : (solved C s time nsfp com_position com_velocity base_yaw).1 = true) :
    ∃ s', run C s time nsfp com_position com_velocity base_yaw = RunResult.completed s' ∧
      (C.stepper_head.get_is_left_leg_in_contact (scheduled C s time nsfp) = true →
        s'.left_foot_velocity_ = ⟨0, 0, 0⟩ ∧ s'.left_foot_acceleration_ = ⟨0, 0, 0⟩ ∧
        s'.left_foot_position_ =
          C.stepper_head.get_current_support_location (scheduled C s time nsfp)) ∧
      (C.stepper_head.get_is_left_leg_in_contact (scheduled C s time nsfp) = false →
        s'.right_foot_velocity_ = ⟨0, 0, 0⟩ ∧ s'.right_foot_acceleration_ = ⟨0, 0, 0⟩ ∧
        s'.right_foot_position_ =
          C.stepper_head.get_current_support_location (scheduled C s time nsfp)) := by
  simp only [solved, scheduled] at hsolve
  simp only [run, scheduled]
  rw [if_neg (by rw [hsolve]; simp)]
  split
  · next hside => exact ⟨_, rfl, by simp [hside, Vector3d.setZero]⟩
  · next hside => exact ⟨_, rfl, by simp [hside, Vector3d.setZero]⟩

/-- Evaluation of the concrete scheduler, used to run the examples. -/
theorem walking_scheduled (feasible : Bool) :
    scheduled concrete (walking feasible) (9 / 4) landing =
      { walkingHead with time_from_last_step_touchdown_ := 1 / 4 } := by
  simp only [scheduled, concrete, withStepperHead, StepperHead.ops, StepperHead.run, walking,
    fresh, walkingHead]
  norm_num

/-- C1 at a concrete cycle: the walking stepper at time 9/4, right foot in contact. -/
theorem stance_foot_frozen_witness :
    (solved concrete (walking true) (9 / 4) landing ⟨0, 0, 3 / 10⟩ ⟨0, 0, 0⟩ 0).1 = true ∧
    ∃ s', run concrete (walking true) (9 / 4) landing ⟨0, 0, 3 / 10⟩ ⟨0, 0, 0⟩ 0
        = RunResult.completed s' ∧
      (concrete.stepper_head.get_is_left_leg_in_contact
          (scheduled concrete (walking true) (9 / 4) landing) = true →
        s'.left_foot_velocity_ = ⟨0, 0, 0⟩ ∧ s'.left_foot_acceleration_ = ⟨0, 0, 0⟩ ∧
        s'.left_foot_position_ =
          concrete.stepper_head.get_current_support_location
            (scheduled concrete (walking true) (9 / 4) landing)) ∧
      (concrete.stepper_head.get_is_left_leg_in_contact
          (scheduled concrete (walking true) (9 / 4) landing) = false →
        s'.right_foot_velocity_ = ⟨0, 0, 0⟩ ∧ s'.right_foot_acceleration_ = ⟨0, 0, 0⟩ ∧
        s'.right_foot_position_ =
          concrete.stepper_head.get_current_support_location
            (scheduled concrete (walking true) (9 / 4) landing)) :=
  ⟨rfl, stance_foot_frozen concrete (walking true) (9 / 4) landing ⟨0, 0, 3 / 10⟩ ⟨0, 0, 0⟩ 0 rfl⟩

/-! ## The feasible CoM velocity -/

/-- After any call of `run` that returns, the third component of the feasible
CoM velocity is 0, whatever the state before the call. -/
theorem run_feasible_vertical (C : Components) (s s' : DcmReactiveStepper C) (time : ℚ)
    (nsfp com_position com_velocity : Vector3d) (base_yaw : ℚ)
    (h : run C s time nsfp com_position com_velocity base_yaw = RunResult.completed s') :
    s'.feasible_com_velocity_.z = 0 := by
  simp only [run] at h
  split at h
  · exact RunResult.noConfusion h
  · split at h <;> (injection h with h; subst h; rfl)

/-- C2: in every reachable state (right after `initialize`, and after every
completed `run` call, for any inputs and any scheduler, planner and trajectory
generator) the vertical component of the feasible CoM velocity is exactly 0. -/
theorem feasible_vertical_zero (C : Components) (s : DcmReactiveStepper C)
    (h : Reachable C s) : s.feasible_com_velocity_.z = 0 := by
  cases h with
  | init s0 b l_min l_max w_min w_max t_min t_max l_p com_height weight mid dt => rfl
  | cycle s0 _ time nsfp cp cv yaw _ hrun =>
    exact run_feasible_vertical C s0 s time nsfp cp cv yaw hrun

/-- C3: whenever the planner's solve succeeds, `run` returns and the feasible CoM
velocity has horizontal components one half of (next support location minus
previous support location), the next support location being the planner's step
location of this cycle and the previous one the scheduler's of this cycle, and
third component 0. -/
theorem feasible_is_half_step (C : Components) (s : DcmReactiveStepper C) (time : ℚ)
    (nsfp com_position com_velocity : Vector3d) (base_yaw : ℚ)
    (hsolve : (solved C s time nsfp com_position com_velocity base_yaw).1 = true) :
    ∃ s', run C s time nsfp com_position com_velocity base_yaw = RunResult.completed s' ∧
      s'.next_support_foot_position_ =
        C.dcm_vrp_planner.get_next_step_location
          (solved C s time nsfp com_position com_velocity base_yaw).2 ∧
      s'.previous_support_foot_position_ =
        C.stepper_head.get_previous_support_location (scheduled C s time nsfp) ∧
      s'.feasible_com_velocity_.x =
        (s'.next_support_foot_position_.x - s'.previous_support_foot_position_.x) / 2 ∧
      s'.feasible_com_velocity_.y =
        (s'.next_support_foot_position_.y - s'.previous_support_foot_position_.y) / 2 ∧
      s'.feasible_com_velocity_.z = 0 := by
  simp only [solved, scheduled] at hsolve
  simp only [run, scheduled, solved]
  rw [if_neg (by rw [hsolve]; simp)]
  split <;>
    exact ⟨_, rfl, rfl, rfl, by simp [Vector3d.setZ, Vector3d.scale, Vector3d.sub, div_eq_mul_inv],
      by simp [Vector3d.setZ, Vector3d.scale, Vector3d.sub, div_eq_mul_inv], rfl⟩

/-! ## Failure of the planner -/

/-- The planner object after a call of `run`, returned or not, is the one left by
`solve` on the planner updated with the scheduler's outputs of this cycle. -/
theorem run_state_planner (C : Components) (s : DcmReactiveStepper C) (time : ℚ)
    (nsfp com_position com_velocity : Vector3d) (base_yaw : ℚ) :
    (run C s time nsfp com_position com_velocity base_yaw).state.dcm_vrp_planner_ =
      (solved C s time nsfp com_position com_velocity base_yaw).2 := by
  simp only [run, solved, scheduled]
  split
  · rfl
  · split <;> rfl

/-- C5: `run` always invokes the planner's solve (the planner is left in the state
`solve` produces); when solve reports failure the call does not return, and at
that point both feet's position, velocity and acceleration, the step duration,
the next support location and the feasible CoM velocity are those from before
the call. -/
theorem solve_failure_aborts (C : Components) (s : DcmReactiveStepper C) (time : ℚ)
    (nsfp com_position com_velocity : Vector3d) (base_yaw : ℚ) :
    (run C s time nsfp com_position com_velocity base_yaw).state.dcm_vrp_planner_ =
        (solved C s time nsfp com_position com_velocity base_yaw).2 ∧
    ((solved C s time nsfp com_position com_velocity base_yaw).1 = false →
      ∃ s', run C s time nsfp com_position com_velocity base_yaw = RunResult.aborted s' ∧
        s'.left_foot_position_ = s.left_foot_position_ ∧
        s'.left_foot_velocity_ = s.left_foot_velocity_ ∧
        s'.left_foot_acceleration_ = s.left_foot_acceleration_ ∧
        s'.right_foot_position_ = s.right_foot_position_ ∧
        s'.right_foot_velocity_ = s.right_foot_velocity_ ∧
        s'.right_foot_acceleration_ = s.right_foot_acceleration_ ∧
        s'.step_duration_ = s.step_duration_ ∧
        s'.next_support_foot_position_ = s.next_support_foot_position_ ∧
        s'.feasible_com_velocity_ = s.feasible_com_velocity_) := by
  constructor
  · exact run_state_planner C s time nsfp com_position com_velocity base_yaw
  · intro hfail
    rw [run_of_solve_false C s time nsfp com_position com_velocity base_yaw hfail]
    exact ⟨_, rfl, rfl, rfl, rfl, rfl, rfl, rfl, rfl, rfl, rfl⟩

/-! ## What the scheduler receives -/

/-- The scheduler object after a call of `run`, returned or not, is the one
produced by its `run` on the stored step duration, the caller's nominal next
support position and the caller's time. -/
theorem run_state_head (C : Components) (s : DcmReactiveStepper C) (time : ℚ)
    (nsfp com_position com_velocity : Vector3d) (base_yaw : ℚ) :
    (run C s time nsfp com_position com_velocity base_yaw).state.stepper_head_ =
      C.stepper_head.run s.stepper_head_ s.step_duration_ nsfp time := by
  simp only [run]
  split
  · rfl
  · split <;> rfl

/-- The step duration stored by a call of `run` that returns is the planner's
duration of that cycle. -/
theorem run_step_duration (C : Components) (s s' : DcmReactiveStepper C) (time : ℚ)
    (nsfp com_position com_velocity : Vector3d) (base_yaw : ℚ)
    (h : run C s time nsfp com_position com_velocity base_yaw = RunResult.completed s') :
    s'.step_duration_ =
      C.dcm_vrp_planner.get_duration_before_step_landing
        (solved C s time nsfp com_position com_velocity base_yaw).2 := by
  simp only [run] at h
  split at h
  · exact RunResult.noConfusion h
  · split at h <;> (injection h with h; subst h; rfl)

/-- C8: every `run` call advances the scheduler with the caller's time, the
caller's nominal next support position and the stored step duration, and the
planner is updated with the outputs of the scheduler so advanced; the stored
step duration is 0 in the first call after `initialize`, and after a completed
cycle it is the duration the planner returned in that cycle, so the next call
hands exactly that duration to the scheduler. -/
theorem scheduler_inputs (C : Components) :
    (∀ (s : DcmReactiveStepper C) (time : ℚ) (nsfp cp cv : Vector3d) (yaw : ℚ),
      (run C s time nsfp cp cv yaw).state.stepper_head_ =
          C.stepper_head.run s.stepper_head_ s.step_duration_ nsfp time ∧
      (run C s time nsfp cp cv yaw).state.dcm_vrp_planner_ =
          (C.dcm_vrp_planner.solve
            (C.dcm_vrp_planner.update s.dcm_vrp_planner_
              (C.stepper_head.get_current_support_location
                (C.stepper_head.run s.stepper_head_ s.step_duration_ nsfp time))
              (C.stepper_head.get_time_from_last_step_touchdown
                (C.stepper_head.run s.stepper_head_ s.step_duration_ nsfp time))
              (C.stepper_head.get_is_left_leg_in_contact
                (C.stepper_head.run s.stepper_head_ s.step_duration_ nsfp time))
              s.desired_com_velocity_ cp cv yaw)).2) ∧
    (∀ (s : DcmReactiveStepper C) (b : Bool)
        (l_min l_max w_min w_max t_min t_max l_p com_height : ℚ) (weight : Vector9d)
        (mid dt time : ℚ) (nsfp cp cv : Vector3d) (yaw : ℚ),
      (run C (initialise C s b l_min l_max w_min w_max t_min t_max l_p com_height weight mid dt)
          time nsfp cp cv yaw).state.stepper_head_ =
        C.stepper_head.run s.stepper_head_ 0 nsfp time) ∧
    (∀ (s s₁ : DcmReactiveStepper C) (time₁ : ℚ) (nsfp₁ cp₁ cv₁ : Vector3d) (yaw₁ : ℚ)
        (time₂ : ℚ) (nsfp₂ cp₂ cv₂ : Vector3d) (yaw₂ : ℚ),
      run C s time₁ nsfp₁ cp₁ cv₁ yaw₁ = RunResult.completed s₁ →
      s₁.step_duration_ =
          C.dcm_vrp_planner.get_duration_before_step_landing
            (solved C s time₁ nsfp₁ cp₁ cv₁ yaw₁).2 ∧
      (run C s₁ time₂ nsfp₂ cp₂ cv₂ yaw₂).state.stepper_head_ =
          C.stepper_head.run s₁.stepper_head_
            (C.dcm_vrp_planner.get_duration_before_step_landing
              (solved C s time₁ nsfp₁ cp₁ cv₁ yaw₁).2) nsfp₂ time₂) := by
  refine ⟨fun s time nsfp cp cv yaw => ⟨run_state_head C s time nsfp cp cv yaw, ?_⟩, ?_, ?_⟩
  · exact (run_state_planner C s time nsfp cp cv yaw)
  · intro s b l_min l_max w_min w_max t_min t_max l_p com_height weight mid dt time nsfp cp cv yaw
    rw [run_state_head]
    rfl
  · intro s s₁ time₁ nsfp₁ cp₁ cv₁ yaw₁ time₂ nsfp₂ cp₂ cv₂ yaw₂ h
    have hd := run_step_duration C s s₁ time₁ nsfp₁ cp₁ cv₁ yaw₁ h
    exact ⟨hd, by rw [run_state_head, hd]⟩

/-! ## The flying foot -/

/-- C9: whenever the planner's solve succeeds, `run` returns, the stored step
duration is the planner's duration of this cycle, and the flying foot (right when
the scheduler reports left-in-contact, left otherwise) receives the values that
`get_next_state` writes at (time since last touchdown + control period) for the
trajectory computed from: start = previous support location, current state =
that foot's position, velocity and acceleration stored before the call, target =
the planner's next step location, start time 0, current time = time since last
touchdown, end time = the planner's step duration. -/
theorem flying_foot_follows_trajectory (C : Components) (s : DcmReactiveStepper C) (time : ℚ)
    (nsfp com_position com_velocity : Vector3d) (base_yaw : ℚ)
    (hsolve : (solved C s time nsfp com_position com_velocity base_yaw).1 = true) :
    ∃ s', run C s time nsfp com_position com_velocity base_yaw = RunResult.completed s' ∧
      s'.step_duration_ =
        C.dcm_vrp_planner.get_duration_before_step_landing
          (solved C s time nsfp com_position com_velocity base_yaw).2 ∧
      (C.stepper_head.get_is_left_leg_in_contact (scheduled C s time nsfp) = true →
        (s'.right_foot_position_, s'.right_foot_velocity_, s'.right_foot_acceleration_) =
          (C.end_eff_traj3d.get_next_state
            (C.end_eff_traj3d.compute s.end_eff_traj3d_
              (C.stepper_head.get_previous_support_location (scheduled C s time nsfp))
              s.right_foot_position_ s.right_foot_velocity_ s.right_foot_acceleration_
              (C.dcm_vrp_planner.get_next_step_location
                (solved C s time nsfp com_position com_velocity base_yaw).2)
              0
              (C.stepper_head.get_time_from_last_step_touchdown (scheduled C s time nsfp))
              (C.dcm_vrp_planner.get_duration_before_step_landing
                (solved C s time nsfp com_position com_velocity base_yaw).2))
            (C.stepper_head.get_time_from_last_step_touchdown (scheduled C s time nsfp)
              + s.control_period_)
            s.right_foot_position_ s.right_foot_velocity_ s.right_foot_acceleration_).2) ∧
      (C.stepper_head.get_is_left_leg_in_contact (scheduled C s time nsfp) = false →
        (s'.left_foot_position_, s'.left_foot_velocity_, s'.left_foot_acceleration_) =
          (C.end_eff_traj3d.get_next_state
            (C.end_eff_traj3d.compute s.end_eff_traj3d_
              (C.stepper_head.get_previous_support_location (scheduled C s time nsfp))
              s.left_foot_position_ s.left_foot_velocity_ s.left_foot_acceleration_
              (C.dcm_vrp_planner.get_next_step_location
                (solved C s time nsfp com_position com_velocity base_yaw).2)
              0
              (C.stepper_head.get_time_from_last_step_touchdown (scheduled C s time nsfp))
              (C.dcm_vrp_planner.get_duration_before_step_landing
                (solved C s time nsfp com_position com_velocity base_yaw).2))
            (C.stepper_head.get_time_from_last_step_touchdown (scheduled C s time nsfp)
              + s.control_period_)
            s.left_foot_position_ s.left_foot_velocity_ s.left_foot_acceleration_).2) := by
  simp only [solved, scheduled] at hsolve
  simp only [run, scheduled, solved]
  rw [if_neg (by rw [hsolve]; simp)]
  split
  · next hside => exact ⟨_, rfl, rfl, fun _ => rfl, fun h => by simp [hside] at h⟩
  · next hside => exact ⟨_, rfl, rfl, fun h => absurd h hside, fun _ => rfl⟩

/-- After a call of `run` that returns, the stance foot of that cycle is stored
at the scheduler's current support location with zero velocity and acceleration,
and the stepper's scheduler object reports that side and that location. -/
theorem run_stance_stored (C : Components) (s s' : DcmReactiveStepper C) (time : ℚ)
    (nsfp com_position com_velocity : Vector3d) (base_yaw : ℚ)
    (h : run C s time nsfp com_position com_velocity base_yaw = RunResult.completed s') :
    flyingFoot s' (!C.stepper_head.get_is_left_leg_in_contact s'.stepper_head_) =
      (C.stepper_head.get_current_support_location s'.stepper_head_, ⟨0, 0, 0⟩, ⟨0, 0, 0⟩) := by
  simp only [run] at h
  split at h
  · exact RunResult.noConfusion h
  · split at h
    · next hside => injection h with h; subst h; simp [flyingFoot, hside, Vector3d.setZero]
    · next hside => injection h with h; subst h; simp [flyingFoot, hside, Vector3d.setZero]

/-- C10: let a cycle complete, and let the next cycle's scheduler call commit a
touchdown as specified (its previous support is the scheduler's current support
from before the call, and the contact side flips). If that next cycle's solve
succeeds, the cycle returns, and the state of the newly flying foot that it hands
to `compute` as current state is (previous support location, 0, 0): the position
equals the start position passed to `compute`, velocity and acceleration are
exactly zero. -/
theorem touchdown_handoff (C : Components) (s s₁ : DcmReactiveStepper C)
    (time₁ : ℚ) (nsfp₁ cp₁ cv₁ : Vector3d) (yaw₁ : ℚ)
    (time₂ : ℚ) (nsfp₂ cp₂ cv₂ : Vector3d) (yaw₂ : ℚ)
    (hfirst : run C s time₁ nsfp₁ cp₁ cv₁ yaw₁ = RunResult.completed s₁)
    (hprev : C.stepper_head.get_previous_support_location (scheduled C s₁ time₂ nsfp₂) =
      C.stepper_head.get_current_support_location s₁.stepper_head_)
    (hflip : C.stepper_head.get_is_left_leg_in_contact (scheduled C s₁ time₂ nsfp₂) =
      !C.stepper_head.get_is_left_leg_in_contact s₁.stepper_head_)
    (hsolve : (solved C s₁ time₂ nsfp₂ cp₂ cv₂ yaw₂).1 = true) :
    ∃ s₂, run C s₁ time₂ nsfp₂ cp₂ cv₂ yaw₂ = RunResult.completed s₂ ∧
      flyingFoot s₁ s₂.is_left_leg_in_contact_ =
        (s₂.previous_support_foot_position_, ⟨0, 0, 0⟩, ⟨0, 0, 0⟩) ∧
      s₂.end_eff_traj3d_ =
        (C.end_eff_traj3d.get_next_state
          (C.end_eff_traj3d.compute s₁.end_eff_traj3d_
            s₂.previous_support_foot_position_
            s₂.previous_support_foot_position_ ⟨0, 0, 0⟩ ⟨0, 0, 0⟩
            s₂.next_support_foot_position_ 0 s₂.time_from_last_step_touchdown_
            s₂.step_duration_)
          (s₂.time_from_last_step_touchdown_ + s₁.control_period_)
          s₂.previous_support_foot_position_ ⟨0, 0, 0⟩ ⟨0, 0, 0⟩).1 := by
  have hstance := run_stance_stored C s s₁ time₁ nsfp₁ cp₁ cv₁ yaw₁ hfirst
  rw [← hflip, ← hprev] at hstance
  simp only [solved, scheduled] at hsolve
  simp only [scheduled] at hstance
  simp only [run]
  rw [if_neg (by rw [hsolve]; simp)]
  split
  · next hside =>
    refine ⟨_, rfl, hstance, ?_⟩
    simp only [hside, flyingFoot, if_true, Prod.mk.injEq] at hstance
    obtain ⟨hp, hv, ha⟩ := hstance
    simp only [hp, hv, ha]
  · next hside =>
    refine ⟨_, rfl, hstance, ?_⟩
    simp only [hside, flyingFoot, Prod.mk.injEq, Bool.false_eq_true, if_false] at hstance
    obtain ⟨hp, hv, ha⟩ := hstance
    simp only [hp, hv, ha]

/-! ## The first cycle -/

/-- The contact state a call of `run` stores, returned or not, is the one the
scheduler reports after being advanced in that call. -/
theorem run_state_contact (C : Components) (s : DcmReactiveStepper C) (time : ℚ)
    (nsfp com_position com_velocity : Vector3d) (base_yaw : ℚ) :
    (run C s time nsfp com_position com_velocity base_yaw).state.is_left_leg_in_contact_ =
        C.stepper_head.get_is_left_leg_in_contact (scheduled C s time nsfp) ∧
    (run C s time nsfp com_position com_velocity base_yaw).state.current_support_foot_position_ =
        C.stepper_head.get_current_support_location (scheduled C s time nsfp) ∧
    (run C s time nsfp com_position com_velocity base_yaw).state.previous_support_foot_position_ =
        C.stepper_head.get_previous_support_location (scheduled C s time nsfp) ∧
    (run C s time nsfp com_position com_velocity base_yaw).state.time_from_last_step_touchdown_ =
        C.stepper_head.get_time_from_last_step_touchdown (scheduled C s time nsfp) := by
  simp only [run, scheduled]
  split
  · exact ⟨rfl, rfl, rfl, rfl⟩
  · split <;> exact ⟨rfl, rfl, rfl, rfl⟩

/-- When `solve` returns `true`, `run` returns. -/
theorem run_of_solve_true (C : Components) (s : DcmReactiveStepper C) (time : ℚ)
    (nsfp com_position com_velocity : Vector3d) (base_yaw : ℚ)
    (h : (solved C s time nsfp com_position com_velocity base_yaw).1 = true) :
    run C s time nsfp com_position com_velocity base_yaw =
      RunResult.completed (run C s time nsfp com_position com_velocity base_yaw).state := by
  simp only [solved, scheduled] at h
  simp only [run]
  rw [if_neg (by rw [h]; simp)]
  split <;> rfl

/-- The spec-modelled scheduler commits no touchdown when handed a step duration
of 0: only the elapsed time is recomputed. -/
theorem StepperHead.run_zero_duration (h : StepperHead) (next_support_location : Vector3d)
    (current_time : ℚ) :
    StepperHead.run h 0 next_support_location current_time =
      { h with time_from_last_step_touchdown_ := current_time - h.time_support_switch_ } := by
  simp [StepperHead.run]

/-- With the spec-modelled scheduler and any planner and trajectory generator,
the first `run` after `initialize` hands the scheduler a step duration of
exactly 0 and commits no touchdown: the scheduler's last touchdown time is kept,
the contact state stored by `run` is the one the scheduler held before the call,
and the elapsed time is the caller's time minus the last touchdown time. -/
theorem first_cycle_no_touchdown (P T : Type) (planner : PlannerOps P) (traj : TrajectoryOps T)
    (s : DcmReactiveStepper (withStepperHead P T planner traj)) (b : Bool)
    (l_min l_max w_min w_max t_min t_max l_p com_height : ℚ) (weight : Vector9d)
    (mid dt time : ℚ) (nsfp cp cv : Vector3d) (yaw : ℚ) :
    (initialise (withStepperHead P T planner traj) s b l_min l_max w_min w_max t_min t_max l_p
        com_height weight mid dt).step_duration_ = 0 ∧
    (run (withStepperHead P T planner traj)
        (initialise (withStepperHead P T planner traj) s b l_min l_max w_min w_max t_min t_max
          l_p com_height weight mid dt) time nsfp cp cv yaw).state.stepper_head_ =
      StepperHead.run s.stepper_head_ 0 nsfp time ∧
    StepperHead.time_support_switch_
        (run (withStepperHead P T planner traj)
          (initialise (withStepperHead P T planner traj) s b l_min l_max w_min w_max t_min t_max
            l_p com_height weight mid dt) time nsfp cp cv yaw).state.stepper_head_ =
      StepperHead.time_support_switch_ s.stepper_head_ ∧
    (run (withStepperHead P T planner traj)
        (initialise (withStepperHead P T planner traj) s b l_min l_max w_min w_max t_min t_max
          l_p com_height weight mid dt) time nsfp cp cv yaw).state.is_left_leg_in_contact_ =
      StepperHead.is_left_leg_in_contact_ s.stepper_head_ ∧
    (run (withStepperHead P T planner traj)
        (initialise (withStepperHead P T planner traj) s b l_min l_max w_min w_max t_min t_max
          l_p com_height weight mid dt) time nsfp cp cv yaw).state.current_support_foot_position_ =
      StepperHead.current_support_location_ s.stepper_head_ ∧
    (run (withStepperHead P T planner traj)
        (initialise (withStepperHead P T planner traj) s b l_min l_max w_min w_max t_min t_max
          l_p com_height weight mid dt) time nsfp cp cv yaw).state.previous_support_foot_position_ =
      StepperHead.previous_support_location_ s.stepper_head_ ∧
    (run (withStepperHead P T planner traj)
        (initialise (withStepperHead P T planner traj) s b l_min l_max w_min w_max t_min t_max
          l_p com_height weight mid dt) time nsfp cp cv yaw).state.time_from_last_step_touchdown_ =
      time - StepperHead.time_support_switch_ s.stepper_head_ := by
  have hhead :
      scheduled (withStepperHead P T planner traj)
        (initialise (withStepperHead P T planner traj) s b l_min l_max w_min w_max t_min t_max
          l_p com_height weight mid dt) time nsfp =
      { (s.stepper_head_ : StepperHead) with
        time_from_last_step_touchdown_ :=
          time - StepperHead.time_support_switch_ s.stepper_head_ } :=
    StepperHead.run_zero_duration s.stepper_head_ nsfp time
  obtain ⟨h1, h2, h3, h4⟩ :=
    run_state_contact (withStepperHead P T planner traj)
      (initialise (withStepperHead P T planner traj) s b l_min l_max w_min w_max t_min t_max
        l_p com_height weight mid dt) time nsfp cp cv yaw
  rw [hhead] at h1 h2 h3 h4
  have h0 := run_state_head (withStepperHead P T planner traj)
      (initialise (withStepperHead P T planner traj) s b l_min l_max w_min w_max t_min t_max
        l_p com_height weight mid dt) time nsfp cp cv yaw
  refine ⟨rfl, h0, ?_, h1, h2, h3, h4⟩
  have h5 :
      (run (withStepperHead P T planner traj)
        (initialise (withStepperHead P T planner traj) s b l_min l_max w_min w_max t_min t_max
          l_p com_height weight mid dt) time nsfp cp cv yaw).state.stepper_head_ =
      StepperHead.run s.stepper_head_ 0 nsfp time := h0
  rw [h5, StepperHead.run_zero_duration]

/-- C4 on the code: `initialize` followed immediately by one `run`, on a stepper
whose scheduler holds the side opposite to the one given to `initialize` (either
way round). The step duration handed to the scheduler is 0, no touchdown is
committed (the last touchdown time stays 0, the elapsed time is the caller's
1/100, the support locations stay (0,0,0)), and yet the contact side after the
call is not the initial one: `initialize` never passes its argument to the
scheduler and `run` takes the side from the scheduler. -/
theorem first_cycle_contact_side_diverges :
    ((configured false (StepperHead.init true) true (1 / 2) landing).is_left_leg_in_contact_
        = false ∧
      (configured false (StepperHead.init true) true (1 / 2) landing).step_duration_ = 0 ∧
      ∃ s', run concrete (configured false (StepperHead.init true) true (1 / 2) landing)
          (1 / 100) landing ⟨0, 0, 3 / 10⟩ ⟨0, 0, 0⟩ 0 = RunResult.completed s' ∧
        s'.stepper_head_ = StepperHead.run (StepperHead.init true) 0 landing (1 / 100) ∧
        StepperHead.time_support_switch_ s'.stepper_head_ = 0 ∧
        s'.time_from_last_step_touchdown_ = 1 / 100 ∧
        s'.current_support_foot_position_ = ⟨0, 0, 0⟩ ∧
        s'.previous_support_foot_position_ = ⟨0, 0, 0⟩ ∧
        s'.is_left_leg_in_contact_ = true) ∧
    ((configured true (StepperHead.init false) true (1 / 2) landing).is_left_leg_in_contact_
        = true ∧
      (configured true (StepperHead.init false) true (1 / 2) landing).step_duration_ = 0 ∧
      ∃ s', run concrete (configured true (StepperHead.init false) true (1 / 2) landing)
          (1 / 100) landing ⟨0, 0, 3 / 10⟩ ⟨0, 0, 0⟩ 0 = RunResult.completed s' ∧
        s'.stepper_head_ = StepperHead.run (StepperHead.init false) 0 landing (1 / 100) ∧
        StepperHead.time_support_switch_ s'.stepper_head_ = 0 ∧
        s'.time_from_last_step_touchdown_ = 1 / 100 ∧
        s'.current_support_foot_position_ = ⟨0, 0, 0⟩ ∧
        s'.previous_support_foot_position_ = ⟨0, 0, 0⟩ ∧
        s'.is_left_leg_in_contact_ = false) := by
  refine ⟨⟨rfl, rfl, _, run_of_solve_true concrete _ _ _ _ _ _ rfl, ?_⟩,
    ⟨rfl, rfl, _, run_of_solve_true concrete _ _ _ _ _ _ rfl, ?_⟩⟩ <;>
  simp [run, RunResult.state, configured, initialise, fresh, concrete, withStepperHead,
    StepperHead.ops, StepperHead.run, StepperHead.init, PlanStore.ops, SwingFit.ops,
    Vector3d.setZero]

/-! ## The initial contact side -/

/-- The first `run` after `initialize` reports the contact side of the scheduler,
whatever side was given to `initialize`. -/
theorem first_run_side_ignores_argument (C : Components) (s : DcmReactiveStepper C) (b : Bool)
    (l_min l_max w_min w_max t_min t_max l_p com_height : ℚ) (weight : Vector9d)
    (mid dt time : ℚ) (nsfp cp cv : Vector3d) (yaw : ℚ) :
    (initialise C s b l_min l_max w_min w_max t_min t_max l_p com_height weight mid
        dt).stepper_head_ = s.stepper_head_ ∧
    (run C (initialise C s b l_min l_max w_min w_max t_min t_max l_p com_height weight mid dt)
        time nsfp cp cv yaw).state.is_left_leg_in_contact_ =
      C.stepper_head.get_is_left_leg_in_contact (C.stepper_head.run s.stepper_head_ 0 nsfp time) :=
  ⟨rfl, (run_state_contact C _ time nsfp cp cv yaw).1⟩

/-- C7 on the code: `initialize` stores the given side, but with a scheduler that
holds the other side (either way round) the first `run`, in which no touchdown
occurs, reports the scheduler's side and freezes the foot of that side as stance
foot, while the foot named at `initialize` is moved along the swing trajectory. -/
theorem initial_side_not_stance_side :
    ((configured false (StepperHead.init true) true (1 / 2) landing).is_left_leg_in_contact_
        = false ∧
      ∃ s', run concrete (configured false (StepperHead.init true) true (1 / 2) landing)
          (1 / 100) landing ⟨0, 0, 3 / 10⟩ ⟨0, 0, 0⟩ 0 = RunResult.completed s' ∧
        s'.stepper_head_ =
          { StepperHead.init true with time_from_last_step_touchdown_ := 1 / 100 } ∧
        s'.is_left_leg_in_contact_ = true ∧
        (s'.left_foot_position_, s'.left_foot_velocity_, s'.left_foot_acceleration_) =
          (s'.current_support_foot_position_, ⟨0, 0, 0⟩, ⟨0, 0, 0⟩) ∧
        s'.end_eff_traj3d_.target_position = landing ∧
        s'.end_eff_traj3d_.end_time = 1 / 2) ∧
    ((configured true (StepperHead.init false) true (1 / 2) landing).is_left_leg_in_contact_
        = true ∧
      ∃ s', run concrete (configured true (StepperHead.init false) true (1 / 2) landing)
          (1 / 100) landing ⟨0, 0, 3 / 10⟩ ⟨0, 0, 0⟩ 0 = RunResult.completed s' ∧
        s'.stepper_head_ =
          { StepperHead.init false with time_from_last_step_touchdown_ := 1 / 100 } ∧
        s'.is_left_leg_in_contact_ = false ∧
        (s'.right_foot_position_, s'.right_foot_velocity_, s'.right_foot_acceleration_) =
          (s'.current_support_foot_position_, ⟨0, 0, 0⟩, ⟨0, 0, 0⟩) ∧
        s'.end_eff_traj3d_.target_position = landing ∧
        s'.end_eff_traj3d_.end_time = 1 / 2) := by
  refine ⟨⟨rfl, _, run_of_solve_true concrete _ _ _ _ _ _ rfl, ?_⟩,
    ⟨rfl, _, run_of_solve_true concrete _ _ _ _ _ _ rfl, ?_⟩⟩ <;>
  simp [run, RunResult.state, configured, initialise, fresh, concrete, withStepperHead,
    StepperHead.ops, StepperHead.run, StepperHead.init, PlanStore.ops, SwingFit.ops,
    Vector3d.setZero, landing] <;>
  norm_num

/-! ## Configuration -/

/-- C6, amended: `initialize` checks nothing and has no failure path. For every
argument set it returns the stepper in which the bounds, the CoM height and the
weights have been passed unchanged to the planner's own initialisation, the
mid-air height to the trajectory generator, the control period and the contact
side are stored as given and the step duration, the times, the locations, the
foot states and the CoM velocities are zero; and a first cycle on that stepper
returns whenever the planner's solve succeeds. -/
theorem initialise_accepts_every_configuration (C : Components) (s : DcmReactiveStepper C)
    (b : Bool) (l_min l_max w_min w_max t_min t_max l_p com_height : ℚ) (weight : Vector9d)
    (mid dt : ℚ) :
    initialise C s b l_min l_max w_min w_max t_min t_max l_p com_height weight mid dt =
      { dcm_vrp_planner_ :=
          C.dcm_vrp_planner.initialise s.dcm_vrp_planner_ l_min l_max w_min w_max t_min t_max
            l_p com_height weight
        end_eff_traj3d_ := C.end_eff_traj3d.set_mid_air_height s.end_eff_traj3d_ mid
        stepper_head_ := s.stepper_head_
        control_period_ := dt
        is_left_leg_in_contact_ := b
        step_duration_ := 0
        time_from_last_step_touchdown_ := 0
        previous_support_foot_position_ := ⟨0, 0, 0⟩
        current_support_foot_position_ := ⟨0, 0, 0⟩
        next_support_foot_position_ := ⟨0, 0, 0⟩
        desired_com_velocity_ := ⟨0, 0, 0⟩
        right_foot_position_ := ⟨0, 0, 0⟩
        right_foot_velocity_ := ⟨0, 0, 0⟩
        right_foot_acceleration_ := ⟨0, 0, 0⟩
        left_foot_position_ := ⟨0, 0, 0⟩
        left_foot_velocity_ := ⟨0, 0, 0⟩
        left_foot_acceleration_ := ⟨0, 0, 0⟩
        feasible_com_velocity_ := ⟨0, 0, 0⟩ } ∧
    ∀ (time : ℚ) (nsfp cp cv : Vector3d) (yaw : ℚ),
      (solved C (initialise C s b l_min l_max w_min w_max t_min t_max l_p com_height weight mid dt)
          time nsfp cp cv yaw).1 = true →
      ∃ s', run C (initialise C s b l_min l_max w_min w_max t_min t_max l_p com_height weight
          mid dt) time nsfp cp cv yaw = RunResult.completed s' :=
  ⟨rfl, fun time nsfp cp cv yaw h => ⟨_, run_of_solve_true C _ time nsfp cp cv yaw h⟩⟩

/-- C6 at a concrete configuration: any bounds, here the scenario's, are accepted
and a first cycle returns. -/
theorem initialise_accepts_every_configuration_witness :
    (solved concrete
        (initialise concrete (fresh (StepperHead.init true) true (1 / 2) landing) true
          (1 / 10) (4 / 10) (1 / 10) (3 / 10) (1 / 10) 1 (2 / 10) (3 / 10) (fun _ => 1)
          (5 / 100) (1 / 100))
        (1 / 100) landing ⟨0, 0, 3 / 10⟩ ⟨0, 0, 0⟩ 0).1 = true ∧
    ∃ s', run concrete
        (initialise concrete (fresh (StepperHead.init true) true (1 / 2) landing) true
          (1 / 10) (4 / 10) (1 / 10) (3 / 10) (1 / 10) 1 (2 / 10) (3 / 10) (fun _ => 1)
          (5 / 100) (1 / 100))
        (1 / 100) landing ⟨0, 0, 3 / 10⟩ ⟨0, 0, 0⟩ 0 = RunResult.completed s' :=
  ⟨rfl, (initialise_accepts_every_configuration concrete
      (fresh (StepperHead.init true) true (1 / 2) landing) true
      (1 / 10) (4 / 10) (1 / 10) (3 / 10) (1 / 10) 1 (2 / 10) (3 / 10) (fun _ => 1)
      (5 / 100) (1 / 100)).2 (1 / 100) landing ⟨0, 0, 3 / 10⟩ ⟨0, 0, 0⟩ 0 rfl⟩

/-- C6 as stated fails: with l_min > l_max, w_min > w_max, t_min > t_max and
negative duration bounds, `initialize` still produces an initialised stepper (the
malformed bounds reach the planner as given, the control period is stored) and
the first cycle on it returns with a new plan and feasible CoM velocity. -/
theorem malformed_configuration_accepted :
    ((4 / 10 : ℚ) > 1 / 10 ∧ (3 / 10 : ℚ) > 1 / 10 ∧ (-1 : ℚ) > -2 ∧ (-1 : ℚ) < 0 ∧
      (-2 : ℚ) < 0) ∧
    ∃ s₀, initialise concrete (fresh (StepperHead.init true) true (1 / 2) landing) true
        (4 / 10) (1 / 10) (3 / 10) (1 / 10) (-1) (-2) (2 / 10) (3 / 10) (fun _ => 1)
        (5 / 100) (1 / 100) = s₀ ∧
      (s₀.dcm_vrp_planner_.l_min, s₀.dcm_vrp_planner_.l_max) = (4 / 10, 1 / 10) ∧
      (s₀.dcm_vrp_planner_.w_min, s₀.dcm_vrp_planner_.w_max) = (3 / 10, 1 / 10) ∧
      (s₀.dcm_vrp_planner_.t_min, s₀.dcm_vrp_planner_.t_max) = (-1, -2) ∧
      s₀.control_period_ = 1 / 100 ∧
      ∃ s', run concrete s₀ (1 / 100) landing ⟨0, 0, 3 / 10⟩ ⟨0, 0, 0⟩ 0
          = RunResult.completed s' ∧
        s'.step_duration_ = 1 / 2 ∧
        s'.next_support_foot_position_ = landing ∧
        s'.feasible_com_velocity_ = ⟨1 / 4, 1 / 20, 0⟩ := by
  refine ⟨by norm_num, _, rfl, rfl, rfl, rfl, rfl, _,
    run_of_solve_true concrete _ _ _ _ _ _ rfl, ?_⟩
  simp [run, RunResult.state, initialise, fresh, concrete, withStepperHead,
    StepperHead.ops, StepperHead.run, StepperHead.init, PlanStore.ops, SwingFit.ops,
    Vector3d.setZero, Vector3d.setZ, Vector3d.scale, Vector3d.sub, landing]
  norm_num

/-! ## Concrete cycles -/

/-- The state `firstCycle` is reachable: one `initialize`, one cycle that returned. -/
theorem firstCycle_reachable : Reachable concrete firstCycle :=
  Reachable.cycle (configured true (StepperHead.init true) true (1 / 2) landing) firstCycle
    (1 / 100) landing ⟨0, 0, 3 / 10⟩ ⟨0, 0, 0⟩ 0
    (Reachable.init _ _ _ _ _ _ _ _ _ _ _ _ _)
    (run_of_solve_true concrete _ _ _ _ _ _ rfl)

/-- C2 at a concrete reachable state. -/
theorem feasible_vertical_zero_witness :
    Reachable concrete firstCycle ∧ firstCycle.feasible_com_velocity_.z = 0 :=
  ⟨firstCycle_reachable, feasible_vertical_zero concrete firstCycle firstCycle_reachable⟩

/-- C3 at a concrete cycle: the walking stepper at time 9/4. -/
theorem feasible_is_half_step_witness :
    (solved concrete (walking true) (9 / 4) landing ⟨0, 0, 3 / 10⟩ ⟨0, 0, 0⟩ 0).1 = true ∧
    ∃ s', run concrete (walking true) (9 / 4) landing ⟨0, 0, 3 / 10⟩ ⟨0, 0, 0⟩ 0
        = RunResult.completed s' ∧
      s'.next_support_foot_position_ =
        concrete.dcm_vrp_planner.get_next_step_location
          (solved concrete (walking true) (9 / 4) landing ⟨0, 0, 3 / 10⟩ ⟨0, 0, 0⟩ 0).2 ∧
      s'.previous_support_foot_position_ =
        concrete.stepper_head.get_previous_support_location
          (scheduled concrete (walking true) (9 / 4) landing) ∧
      s'.feasible_com_velocity_.x =
        (s'.next_support_foot_position_.x - s'.previous_support_foot_position_.x) / 2 ∧
      s'.feasible_com_velocity_.y =
        (s'.next_support_foot_position_.y - s'.previous_support_foot_position_.y) / 2 ∧
      s'.feasible_com_velocity_.z = 0 :=
  ⟨rfl, feasible_is_half_step concrete (walking true) (9 / 4) landing ⟨0, 0, 3 / 10⟩ ⟨0, 0, 0⟩ 0
    rfl⟩

/-- C5 at a concrete cycle: the walking stepper whose planner reports failure. -/
theorem solve_failure_aborts_witness :
    (solved concrete (walking false) (9 / 4) landing ⟨0, 0, 3 / 10⟩ ⟨0, 0, 0⟩ 0).1 = false ∧
    ∃ s', run concrete (walking false) (9 / 4) landing ⟨0, 0, 3 / 10⟩ ⟨0, 0, 0⟩ 0
        = RunResult.aborted s' ∧
      s'.left_foot_position_ = (walking false).left_foot_position_ ∧
      s'.left_foot_velocity_ = (walking false).left_foot_velocity_ ∧
      s'.left_foot_acceleration_ = (walking false).left_foot_acceleration_ ∧
      s'.right_foot_position_ = (walking false).right_foot_position_ ∧
      s'.right_foot_velocity_ = (walking false).right_foot_velocity_ ∧
      s'.right_foot_acceleration_ = (walking false).right_foot_acceleration_ ∧
      s'.step_duration_ = (walking false).step_duration_ ∧
      s'.next_support_foot_position_ = (walking false).next_support_foot_position_ ∧
      s'.feasible_com_velocity_ = (walking false).feasible_com_velocity_ :=
  ⟨rfl, (solve_failure_aborts concrete (walking false) (9 / 4) landing ⟨0, 0, 3 / 10⟩
    ⟨0, 0, 0⟩ 0).2 rfl⟩

/-- C8 at two concrete consecutive cycles of the walking stepper, at times 9/4
and 5/2. -/
theorem scheduler_inputs_witness :
    run concrete (walking true) (9 / 4) landing ⟨0, 0, 3 / 10⟩ ⟨0, 0, 0⟩ 0
        = RunResult.completed walkingNext ∧
    walkingNext.step_duration_ =
        concrete.dcm_vrp_planner.get_duration_before_step_landing
          (solved concrete (walking true) (9 / 4) landing ⟨0, 0, 3 / 10⟩ ⟨0, 0, 0⟩ 0).2 ∧
    (run concrete walkingNext (5 / 2) ⟨4 / 5, -1 / 10, 0⟩ ⟨0, 0, 3 / 10⟩ ⟨0, 0, 0⟩
          0).state.stepper_head_ =
        concrete.stepper_head.run walkingNext.stepper_head_
          (concrete.dcm_vrp_planner.get_duration_before_step_landing
            (solved concrete (walking true) (9 / 4) landing ⟨0, 0, 3 / 10⟩ ⟨0, 0, 0⟩ 0).2)
          ⟨4 / 5, -1 / 10, 0⟩ (5 / 2) :=
  ⟨run_of_solve_true concrete _ _ _ _ _ _ rfl,
    (scheduler_inputs concrete).2.2 (walking true) walkingNext (9 / 4) landing ⟨0, 0, 3 / 10⟩
      ⟨0, 0, 0⟩ 0 (5 / 2) ⟨4 / 5, -1 / 10, 0⟩ ⟨0, 0, 3 / 10⟩ ⟨0, 0, 0⟩ 0
      (run_of_solve_true concrete _ _ _ _ _ _ rfl)⟩

/-- C9 at a concrete cycle: the walking stepper at time 9/4, left foot flying. -/
theorem flying_foot_follows_trajectory_witness :
    (solved concrete (walking true) (9 / 4) landing ⟨0, 0, 3 / 10⟩ ⟨0, 0, 0⟩ 0).1 = true ∧
    ∃ s', run concrete (walking true) (9 / 4) landing ⟨0, 0, 3 / 10⟩ ⟨0, 0, 0⟩ 0 = RunResult.completed s' ∧
      s'.step_duration_ =
        concrete.dcm_vrp_planner.get_duration_before_step_landing
          (solved concrete (walking true) (9 / 4) landing ⟨0, 0, 3 / 10⟩ ⟨0, 0, 0⟩ 0).2 ∧
      (concrete.stepper_head.get_is_left_leg_in_contact (scheduled concrete (walking true) (9 / 4) landing) = true →
        (s'.right_foot_position_, s'.right_foot_velocity_, s'.right_foot_acceleration_) =
          (concrete.end_eff_traj3d.get_next_state
            (concrete.end_eff_traj3d.compute (walking true).end_eff_traj3d_
              (concrete.stepper_head.get_previous_support_location (scheduled concrete (walking true) (9 / 4) landing))
              (walking true).right_foot_position_ (walking true).right_foot_velocity_ (walking true).right_foot_acceleration_
              (concrete.dcm_vrp_planner.get_next_step_location
                (solved concrete (walking true) (9 / 4) landing ⟨0, 0, 3 / 10⟩ ⟨0, 0, 0⟩ 0).2)
              0
              (concrete.stepper_head.get_time_from_last_step_touchdown (scheduled concrete (walking true) (9 / 4) landing))
              (concrete.dcm_vrp_planner.get_duration_before_step_landing
                (solved concrete (walking true) (9 / 4) landing ⟨0, 0, 3 / 10⟩ ⟨0, 0, 0⟩ 0).2))
            (concrete.stepper_head.get_time_from_last_step_touchdown (scheduled concrete (walking true) (9 / 4) landing)
              + (walking true).control_period_)
            (walking true).right_foot_position_ (walking true).right_foot_velocity_ (walking true).right_foot_acceleration_).2) ∧
      (concrete.stepper_head.get_is_left_leg_in_contact (scheduled concrete (walking true) (9 / 4) landing) = false →
        (s'.left_foot_position_, s'.left_foot_velocity_, s'.left_foot_acceleration_) =
          (concrete.end_eff_traj3d.get_next_state
            (concrete.end_eff_traj3d.compute (walking true).end_eff_traj3d_
              (concrete.stepper_head.get_previous_support_location (scheduled concrete (walking true) (9 / 4) landing))
              (walking true).left_foot_position_ (walking true).left_foot_velocity_ (walking true).left_foot_acceleration_
              (concrete.dcm_vrp_planner.get_next_step_location
                (solved concrete (walking true) (9 / 4) landing ⟨0, 0, 3 / 10⟩ ⟨0, 0, 0⟩ 0).2)
              0
              (concrete.stepper_head.get_time_from_last_step_touchdown (scheduled concrete (walking true) (9 / 4) landing))
              (concrete.dcm_vrp_planner.get_duration_before_step_landing
                (solved concrete (walking true) (9 / 4) landing ⟨0, 0, 3 / 10⟩ ⟨0, 0, 0⟩ 0).2))
            (concrete.stepper_head.get_time_from_last_step_touchdown (scheduled concrete (walking true) (9 / 4) landing)
              + (walking true).control_period_)
            (walking true).left_foot_position_ (walking true).left_foot_velocity_ (walking true).left_foot_acceleration_).2) :=
  ⟨rfl, flying_foot_follows_trajectory concrete (walking true) (9 / 4) landing ⟨0, 0, 3 / 10⟩
    ⟨0, 0, 0⟩ 0 rfl⟩

/-- The scheduler of `walkingNext`: no touchdown at time 9/4. -/
theorem walkingNext_head :
    walkingNext.stepper_head_ =
      { walkingHead with time_from_last_step_touchdown_ := 1 / 4 } :=
  (run_state_head concrete (walking true) (9 / 4) landing ⟨0, 0, 3 / 10⟩ ⟨0, 0, 0⟩ 0).trans
    (walking_scheduled true)

/-- The step duration stored in `walkingNext` is the planned 1/2. -/
theorem walkingNext_step_duration : walkingNext.step_duration_ = 1 / 2 :=
  run_step_duration concrete (walking true) walkingNext (9 / 4) landing ⟨0, 0, 3 / 10⟩
    ⟨0, 0, 0⟩ 0 (run_of_solve_true concrete _ _ _ _ _ _ rfl)

/-- The scheduler of `walkingNext` advanced at time 5/2: elapsed time 1/2 reaches
the step duration 1/2 and a touchdown is committed. -/
theorem walkingNext_scheduled :
    scheduled concrete walkingNext (5 / 2) landing =
      { time_from_last_step_touchdown_ := 0
        is_left_leg_in_contact_ := true
        previous_support_location_ := ⟨3 / 10, -1 / 10, 0⟩
        current_support_location_ := landing
        time_support_switch_ := 5 / 2 } := by
  have h : scheduled concrete walkingNext (5 / 2) landing =
      StepperHead.run walkingNext.stepper_head_ walkingNext.step_duration_ landing (5 / 2) := rfl
  rw [h, walkingNext_head, walkingNext_step_duration]
  simp only [StepperHead.run, walkingHead]
  norm_num

/-- C10 at two concrete consecutive cycles of the walking stepper: the cycle at
time 9/4 returns with the right foot in contact, and at time 5/2 the elapsed time
1/2 reaches the planned step duration 1/2, so the scheduler commits a touchdown
and the right foot starts to fly. -/
theorem touchdown_handoff_witness :
    (run concrete (walking true) (9 / 4) landing ⟨0, 0, 3 / 10⟩ ⟨0, 0, 0⟩ 0
        = RunResult.completed walkingNext ∧
      concrete.stepper_head.get_previous_support_location
          (scheduled concrete walkingNext (5 / 2) landing) =
        concrete.stepper_head.get_current_support_location walkingNext.stepper_head_ ∧
      concrete.stepper_head.get_is_left_leg_in_contact
          (scheduled concrete walkingNext (5 / 2) landing) =
        !concrete.stepper_head.get_is_left_leg_in_contact walkingNext.stepper_head_ ∧
      (solved concrete walkingNext (5 / 2) landing ⟨0, 0, 3 / 10⟩ ⟨0, 0, 0⟩ 0).1 = true) ∧
    ∃ s₂, run concrete walkingNext (5 / 2) landing ⟨0, 0, 3 / 10⟩ ⟨0, 0, 0⟩ 0
        = RunResult.completed s₂ ∧
      flyingFoot walkingNext s₂.is_left_leg_in_contact_ =
        (s₂.previous_support_foot_position_, ⟨0, 0, 0⟩, ⟨0, 0, 0⟩) ∧
      s₂.end_eff_traj3d_ =
        (concrete.end_eff_traj3d.get_next_state
          (concrete.end_eff_traj3d.compute walkingNext.end_eff_traj3d_
            s₂.previous_support_foot_position_
            s₂.previous_support_foot_position_ ⟨0, 0, 0⟩ ⟨0, 0, 0⟩
            s₂.next_support_foot_position_ 0 s₂.time_from_last_step_touchdown_
            s₂.step_duration_)
          (s₂.time_from_last_step_touchdown_ + walkingNext.control_period_)
          s₂.previous_support_foot_position_ ⟨0, 0, 0⟩ ⟨0, 0, 0⟩).1 :=
  have hfirst : run concrete (walking true) (9 / 4) landing ⟨0, 0, 3 / 10⟩ ⟨0, 0, 0⟩ 0
      = RunResult.completed walkingNext := run_of_solve_true concrete _ _ _ _ _ _ rfl
  have hhead : scheduled concrete walkingNext (5 / 2) landing =
      { time_from_last_step_touchdown_ := 0
        is_left_leg_in_contact_ := true
        previous_support_location_ := ⟨3 / 10, -1 / 10, 0⟩
        current_support_location_ := landing
        time_support_switch_ := 5 / 2 } := walkingNext_scheduled
  have hprev : concrete.stepper_head.get_previous_support_location
        (scheduled concrete walkingNext (5 / 2) landing) =
      concrete.stepper_head.get_current_support_location walkingNext.stepper_head_ := by
    rw [hhead, walkingNext_head]
    rfl
  have hflip : concrete.stepper_head.get_is_left_leg_in_contact
        (scheduled concrete walkingNext (5 / 2) landing) =
      !concrete.stepper_head.get_is_left_leg_in_contact walkingNext.stepper_head_ := by
    rw [hhead, walkingNext_head]
    rfl
  have hsolve : (solved concrete walkingNext (5 / 2) landing ⟨0, 0, 3 / 10⟩ ⟨0, 0, 0⟩ 0).1
      = true :=
    congrArg PlanStore.feasible
      (run_state_planner concrete (walking true) (9 / 4) landing ⟨0, 0, 3 / 10⟩ ⟨0, 0, 0⟩ 0)
  ⟨⟨hfirst, hprev, hflip, hsolve⟩,
    touchdown_handoff concrete (walking true) walkingNext (9 / 4) landing ⟨0, 0, 3 / 10⟩
      ⟨0, 0, 0⟩ 0 (5 / 2) landing ⟨0, 0, 3 / 10⟩ ⟨0, 0, 0⟩ 0 hfirst hprev hflip hsolve⟩

end reactive_planners
